import Mathlib

/-!
Shallow embedding of `src/dynatrace-backup-auto.py` (class
`DynatraceBackupUniversal`), together with theorems settling the
specification's claims about it.

Strings are modelled as `List Char`; the Python string operations the program
uses (slicing, `strip`, `startswith`, the `in` substring test, `lower`) are
embedded as explicit list functions. Filesystem and network effects are
modelled by explicit environment records (what exists on disk, which download
methods would succeed) and by event traces listing the side effects a call
performs, in program order.
-/

namespace DTBackup

/-- Python `s.startswith(p)`. -/
def pyStartsWith (p s : List Char) : Bool := p.isPrefixOf s

/-- Python `pat in s`: `pat` occurs contiguously inside `s`. -/
def pyContains (s pat : List Char) : Bool := s.tails.any (fun t => pat.isPrefixOf t)

/-- Python `s.lower()` (ASCII case folding, which is all the program compares). -/
def pyLower (s : List Char) : List Char := s.map Char.toLower

/-- The whitespace characters Python `str.strip()` removes. -/
def pyIsSpace (c : Char) : Bool :=
  c = ' ' || c = '\t' || c = '\n' || c = '\r' || c = '\x0b' || c = '\x0c'

/-- Strip characters satisfying `p` from both ends, as Python `str.strip(chars)`. -/
def pyStripBy (p : Char → Bool) (s : List Char) : List Char :=
  ((s.dropWhile p).reverse.dropWhile p).reverse

/-- Python `s.strip()` with no argument. -/
def pyStripWs (s : List Char) : List Char := pyStripBy pyIsSpace s

/-- The characters removed by `strip('"\'')` in `_get_token`. -/
def isQuoteChar (c : Char) : Bool := c = '"' || c = '\''

/-- Python `s.strip('"\'')`. -/
def pyStripQuotes (s : List Char) : List Char := pyStripBy isQuoteChar s

/-- Python `line.split("=", 1)[1]`: everything after the first `=`
(the callers only use it on lines that do contain `=`). -/
def afterFirstEq : List Char → List Char
  | [] => []
  | c :: cs => if c = '=' then cs else afterFirstEq cs

/-- Line 292, `validate_environment`:
`masked_token = f"{self.token[:10]}...{self.token[-10:]}"`.
Python slice `[:10]` is `take 10`; `[-10:]` is the last `min 10 (length)`
characters, i.e. `drop (length - 10)` with truncated subtraction. -/
def maskToken (token : List Char) : List Char :=
  token.take 10 ++ ("...".data) ++ token.drop (token.length - 10)

/-- The three download methods of `download_monaco` (lines 321-378):
requests streaming GET, urllib with certificate checks disabled, external curl. -/
inductive DlMethod
  | requestsGet
  | urllibOpen
  | curlExec
deriving DecidableEq

/-- Environment for one `download_monaco` call: whether the binary is already
on disk, whether the `requests` library imported at module load
(`HAS_REQUESTS`), and which of the three download methods would succeed if
attempted. -/
structure DlEnv where
  monacoExists : Bool
  hasRequests : Bool
  requestsOk : Bool
  urllibOk : Bool
  curlOk : Bool
deriving DecidableEq

/-- `download_monaco` (lines 298-389), returning its Bool result paired with
the list of download methods it attempts, in order. Mirrors the source:
an early return when the binary exists; otherwise `success = False`, then
`if HAS_REQUESTS:` try requests (its failure caught, nothing further tried),
`else:` try urllib, and only inside urllib's exception handler try curl;
finally `if not success: return False`. -/
def download_monaco (e : DlEnv) : Bool × List DlMethod :=
  if e.monacoExists then
    (true, [])
  else
    let step :=
      if e.hasRequests then
        if e.requestsOk then (true, [DlMethod.requestsGet])
        else (false, [DlMethod.requestsGet])
      else
        if e.urllibOk then (true, [DlMethod.urllibOpen])
        else
          if e.curlOk then (true, [DlMethod.urllibOpen, DlMethod.curlExec])
          else (false, [DlMethod.urllibOpen, DlMethod.curlExec])
    if step.1 then (true, step.2) else (false, step.2)

/-- A Python `datetime` value as far as the program observes it. -/
structure PyDateTime where
  year : Nat
  month : Nat
  day : Nat
  hour : Nat
  minute : Nat
  second : Nat
  microsecond : Nat
deriving DecidableEq

/-- The ASCII digit character for `n < 10`. -/
def dchar (n : Nat) : Char := Char.ofNat (48 + n)

/-- Zero-padded two-digit decimal rendering (strftime `%m`, `%d`, `%H`, `%M`, `%S`). -/
def pad2 (n : Nat) : List Char := [dchar (n / 10), dchar (n % 10)]

/-- Zero-padded four-digit decimal rendering (strftime `%Y` for years below 10000). -/
def pad4 (n : Nat) : List Char := pad2 (n / 100) ++ pad2 (n % 100)

/-- Line 505: `timestamp = datetime.now().strftime("%Y%m%d_%H%M%S")`.
Note the format has second granularity; `microsecond` does not appear. -/
def strftimeTS (t : PyDateTime) : List Char :=
  pad4 t.year ++ pad2 t.month ++ pad2 t.day ++ ['_'] ++
    pad2 t.hour ++ pad2 t.minute ++ pad2 t.second

/-- Line 506: `backup_path = self.backup_dir / f"backup_{timestamp}"` —
the final path component of a run's output directory. -/
def backupDirName (t : PyDateTime) : List Char := ("backup_".data) ++ strftimeTS t

/-- Python truthiness of an optional string, as tested by `if token:` and
`if not self.token:`: `None` and the empty string are falsy. -/
def pyTruthy : Option (List Char) → Bool
  | none => false
  | some [] => false
  | some (_ :: _) => true

/-- The credential sources `_get_token` consults. `envFile` is the list of
raw lines of `.env` when that file exists; `configToken` is the value the
`dynatrace.config` branch would return (`config.get("token")`), collapsed to
`none` when the file is absent, unparseable or lacks the key (the JSON
parsing itself is outside the program under proof). -/
structure TokenEnv where
  dtApiToken : Option (List Char)
  dynatraceApiToken : Option (List Char)
  envFile : Option (List (List Char))
  configToken : Option (List Char)

/-- The `.env` scan of `_get_token` (lines 83-88): first line starting with
`DT_API_TOKEN=` or `DYNATRACE_API_TOKEN=` wins; its value is everything after
the first `=`, whitespace-stripped then quote-stripped. -/
def envFileScan : List (List Char) → Option (List Char)
  | [] => none
  | l :: ls =>
    if pyStartsWith ("DT_API_TOKEN=".data) l || pyStartsWith ("DYNATRACE_API_TOKEN=".data) l then
      some (pyStripQuotes (pyStripWs (afterFirstEq l)))
    else envFileScan ls

/-- `_get_token` (lines 70-100): primary env var `DT_API_TOKEN` (if truthy),
then legacy `DYNATRACE_API_TOKEN` (if truthy), then the `.env` file scan,
then `dynatrace.config`, else `None`. -/
def _get_token (e : TokenEnv) : Option (List Char) :=
  if pyTruthy e.dtApiToken then e.dtApiToken
  else if pyTruthy e.dynatraceApiToken then e.dynatraceApiToken
  else
    match e.envFile with
    | some lines =>
      match envFileScan lines with
      | some v => some v
      | none => e.configToken
    | none => e.configToken

/-- One outcome of the `subprocess.run` dry-run inside `test_connectivity`:
either the process completed with an exit code and combined
`stdout + stderr` text, or the 30s timeout fired (`TimeoutExpired`), or some
other exception was raised while setting up or running the probe. -/
inductive ProbeOutcome
  | completed (returncode : Int) (output : List Char)
  | timedOut
  | raised
deriving DecidableEq

/-- `test_connectivity` (lines 391-471), as a function of the dry-run's
outcome. Mirrors the source branch for branch:
`output_text = (result.stdout + result.stderr).lower()`; success is checked
first (`returncode == 0` or a success marker), then 401/unauthorized, then
403/forbidden, then connection/network/timeout substrings, else an
inconclusive warning and `True`; `TimeoutExpired` gives `False`; any other
exception gives `True`. -/
def test_connectivity : ProbeOutcome → Bool
  | ProbeOutcome.completed returncode output =>
    let output_text := pyLower output
    if returncode = 0 || pyContains output_text ("validation successful".data)
        || pyContains output_text ("would deploy".data) then
      true
    else if pyContains output_text ("401".data) || pyContains output_text ("unauthorized".data) then
      false
    else if pyContains output_text ("403".data) || pyContains output_text ("forbidden".data) then
      false
    else if pyContains output_text ("connection".data) || pyContains output_text ("network".data)
        || pyContains output_text ("timeout".data) then
      false
    else
      true
  | ProbeOutcome.timedOut => false
  | ProbeOutcome.raised => true

/-- One regular file as `_analyze_backup` observes it: its final name
component, the name of its immediate parent directory, its size, and whether
`file.stat()` succeeds (the loop body's `except: pass` skips the size — but
only the size — of a file whose stat fails). -/
structure BFile where
  name : List Char
  parentName : List Char
  size : Nat
  statOk : Bool
deriving DecidableEq

/-- Whether `backup_path.rglob("*.json")` matches the file: its name ends in
`.json`. -/
def matchesJsonGlob (f : BFile) : Bool := (".json".data).isSuffixOf f.name

/-- Increment the counter for key `k` in an insertion-ordered association
list, as `config_types[config_type] += 1` does on a Python dict. -/
def bumpCount (k : List Char) : List (List Char × Nat) → List (List Char × Nat)
  | [] => [(k, 1)]
  | (k₁, c) :: rest =>
    if k₁ = k then (k₁, c + 1) :: rest else (k₁, c) :: bumpCount k rest

/-- The statistics `_analyze_backup` derives. -/
structure AnalysisResult where
  configTypes : List (List Char × Nat)
  totalSize : Nat
  totalFiles : Nat
deriving DecidableEq

/-- The `for file in json_files:` loop of `_analyze_backup` (lines 571-579):
bucket by `file.parent.name` and accumulate `file.stat().st_size`; a failing
`stat` skips only the size accumulation (the bucket increment on that
iteration happened before the exception). -/
def analyzeLoop : List BFile → List (List Char × Nat) → Nat → List (List Char × Nat) × Nat
  | [], types, size => (types, size)
  | f :: fs, types, size =>
    analyzeLoop fs (bumpCount f.parentName types) (if f.statOk then size + f.size else size)

/-- `_analyze_backup` (lines 556-594) over the regular files below the run's
output directory: only `rglob("*.json")` matches are analyzed; `totalFiles`
is `len(json_files)`. -/
def _analyze_backup (files : List BFile) : AnalysisResult :=
  let json_files := files.filter matchesJsonGlob
  let st := analyzeLoop json_files [] 0
  { configTypes := st.1, totalSize := st.2, totalFiles := json_files.length }

/-- How the supervised child process (`subprocess.run` at lines 528-533)
ends: exit with a code, or the 600-second timeout (`TimeoutExpired`). -/
inductive ChildOutcome
  | exited (code : Int)
  | timedOut
deriving DecidableEq

/-- The side effects `run_backup` can perform, in program order.
`spawnThread` is included in the type so that the absence of any concurrently
spawned activity is a checkable statement; the source never emits one. -/
inductive RunEvent
  | mkBackupDir
  | writeMonacoConfig
  | runChildBlocking
  | analyzeBackup
  | writeRestorePy
  | writeReadme
  | spawnThread (label : List Char)
deriving DecidableEq

/-- The two file writes of `_create_restore_script` (lines 596-717):
`restore.py`, then `README.md`, both into the run's output directory. -/
def create_restore_script_events : List RunEvent :=
  [RunEvent.writeRestorePy, RunEvent.writeReadme]

/-- `run_backup` (lines 500-554) for a run starting at time `t`, given the
child outcome and whether `backup_path.exists()` holds after the child
finishes. Returns the backup path (`None` on any failure) and the ordered
side effects. The child is run by a single blocking `subprocess.run` call
with no output capture; `check=True` raises `CalledProcessError` on a
non-zero exit, and both it and `TimeoutExpired` are caught and return `None`
before `_analyze_backup` or `_create_restore_script` is reached. -/
def run_backup (t : PyDateTime) (outcome : ChildOutcome) (dirExists : Bool) :
    Option (List Char) × List RunEvent :=
  let pre := [RunEvent.mkBackupDir, RunEvent.writeMonacoConfig, RunEvent.runChildBlocking]
  match outcome with
  | ChildOutcome.exited code =>
    if code = 0 then
      if dirExists then
        (some (backupDirName t), pre ++ [RunEvent.analyzeBackup] ++ create_restore_script_events)
      else (none, pre)
    else (none, pre)
  | ChildOutcome.timedOut => (none, pre)

/-- The labels of the concurrent activities a list of run events spawns. -/
def spawnedActivities (evs : List RunEvent) : List (List Char) :=
  evs.filterMap (fun e => match e with
    | RunEvent.spawnThread label => some label
    | _ => none)

/-- A network request the top-level flow can attempt. -/
inductive NetAction
  | pythonInstallerDownload
  | pipInstall (package : List Char)
  | monacoDownload (m : DlMethod)
  | connectivityDryRun
  | backupDownload
deriving DecidableEq

/-- The host state one top-level invocation runs against: the credential
sources, whether the interpreter satisfies the version check, whether the
optional `requests` library is importable, what is on disk, and how each
fallible step would turn out if reached. -/
structure SysEnv where
  dtClusterUrl : Option (List Char)
  tokens : TokenEnv
  pythonOk : Bool
  pythonInstallOk : Bool
  hasRequests : Bool
  monacoExists : Bool
  requestsOk : Bool
  urllibOk : Bool
  curlOk : Bool
  probe : ProbeOutcome
  child : ChildOutcome
  dirExistsAfter : Bool
  startTime : PyDateTime

/-- The `DlEnv` a `download_monaco` call sees inside this host state. -/
def dlEnvOf (e : SysEnv) : DlEnv :=
  { monacoExists := e.monacoExists, hasRequests := e.hasRequests,
    requestsOk := e.requestsOk, urllibOk := e.urllibOk, curlOk := e.curlOk }

/-- `check_python_installation` (lines 115-125), with `_install_python`
abstracted to its success Bool; its installer download is recorded as the
network request it performs. -/
def check_python_installation (e : SysEnv) : Bool × List NetAction :=
  if e.pythonOk then (true, [])
  else (e.pythonInstallOk, [NetAction.pythonInstallerDownload])

/-- `install_dependencies` (lines 245-266): when `requests` is not importable
it attempts a `pip install` (a network request) but continues whether or not
that succeeds, and always returns `True`. -/
def install_dependencies (e : SysEnv) : Bool × List NetAction :=
  if e.hasRequests then (true, [])
  else (true, [NetAction.pipInstall ("requests".data)])

/-- `validate_environment` (lines 268-296): Python check, then dependency
install, then the token check — which fails (`return False`) when the
resolved token is falsy. The token masking/printing happens only after that
check passes. -/
def validate_environment (e : SysEnv) : Bool × List NetAction :=
  let py := check_python_installation e
  if !py.1 then (false, py.2)
  else
    let deps := install_dependencies e
    if !deps.1 then (false, py.2 ++ deps.2)
    else if !pyTruthy (_get_token e.tokens) then (false, py.2 ++ deps.2)
    else (true, py.2 ++ deps.2)

/-- `run_complete_backup` (lines 719-756): validate, acquire the tool, probe
connectivity, run the backup; any failing step stops the flow. Returns the
overall success flag and the network requests attempted, in order (the
connectivity dry-run and the backup download are network operations whatever
their outcome). -/
def run_complete_backup (e : SysEnv) : Bool × List NetAction :=
  let val := validate_environment e
  if !val.1 then (false, val.2)
  else
    let dl := download_monaco (dlEnvOf e)
    let dlActs := dl.2.map NetAction.monacoDownload
    if !dl.1 then (false, val.2 ++ dlActs)
    else if !test_connectivity e.probe then
      (false, val.2 ++ dlActs ++ [NetAction.connectivityDryRun])
    else
      let run := run_backup e.startTime e.child e.dirExistsAfter
      match run.1 with
      | some _ => (true, val.2 ++ dlActs ++ [NetAction.connectivityDryRun, NetAction.backupDownload])
      | none => (false, val.2 ++ dlActs ++ [NetAction.connectivityDryRun, NetAction.backupDownload])

/-- `main` (lines 758-769) plus the constructor check (lines 33-37): a falsy
`DT_CLUSTER_URL` calls `sys.exit(1)` before anything else; otherwise the
process exit status is 0 iff `run_complete_backup` succeeded. Paired with
the network requests the invocation attempts. -/
def mainExit (e : SysEnv) : Nat × List NetAction :=
  if !pyTruthy e.dtClusterUrl then (1, [])
  else
    let r := run_complete_backup e
    (if r.1 then 0 else 1, r.2)

/-- Total of all per-bucket counts in an association list of buckets. -/
def countTotal (types : List (List Char × Nat)) : Nat := (types.map (fun p => p.2)).sum

/-- The component ranges of a real `datetime` value (month and day are
1-based; the exact lower bounds are irrelevant to the statements below). -/
abbrev PyDateTime.Valid (t : PyDateTime) : Prop :=
  t.year < 10000 ∧ t.month ≤ 12 ∧ t.day ≤ 31 ∧ t.hour < 24 ∧ t.minute < 60 ∧ t.second < 60

/-- The host state for the C5 scenario on a machine missing the optional
`requests` library: URL set, every token source empty. -/
def c5EnvNoRequests : SysEnv :=
  { dtClusterUrl := some ("https://abc.live.example.com".data),
    tokens := { dtApiToken := none, dynatraceApiToken := none,
                envFile := none, configToken := none },
    pythonOk := true, pythonInstallOk := true, hasRequests := false,
    monacoExists := true, requestsOk := false, urllibOk := true, curlOk := true,
    probe := ProbeOutcome.raised, child := ChildOutcome.exited 0,
    dirExistsAfter := true,
    startTime := ⟨2024, 1, 1, 0, 0, 0, 0⟩ }

/-- The same scenario on a machine where `requests` is importable. -/
def c5EnvWithRequests : SysEnv :=
  { c5EnvNoRequests with hasRequests := true }

/-- The claim C1 scenario: 90 `.json` files and 30 `.yaml` files of 20000
bytes each — 120 files, 2,400,000 bytes on disk. -/
def c1Scenario : List BFile :=
  List.replicate 90
    { name := ("cfg.json".data), parentName := ("auto-tag".data),
      size := 20000, statOk := true } ++
  List.replicate 30
    { name := ("cfg.yaml".data), parentName := ("dashboards".data),
      size := 20000, statOk := true }

/-- A two-file directory tree: one `.json` file and one `.yaml` file. -/
def c1WitnessFiles : List BFile :=
  [{ name := ("a.json".data), parentName := ("auto-tag".data), size := 100, statOk := true },
   { name := ("b.yaml".data), parentName := ("auto-tag".data), size := 50, statOk := true }]

-- ------------------------------------------------------------------
-- Shared helper lemmas
-- ------------------------------------------------------------------

theorem pyTruthy_of_ne_nil (v : List Char) (hv : v ≠ []) : pyTruthy (some v) = true := by
  cases v with
  | nil => exact absurd rfl hv
  | cons c cs => rfl

-- ------------------------------------------------------------------
-- C8
-- ------------------------------------------------------------------

/-- C8: when the expected tool binary already exists at the expected local
path, `download_monaco` returns success immediately and attempts no download
method — zero network requests; hence calling it twice in a row with the
binary present performs zero network requests on the second call as well. -/
theorem C8_acquirer_idempotent (e : DlEnv) (h : e.monacoExists = true) :
    download_monaco e = (true, []) := by
  simp [download_monaco, h]

theorem C8_acquirer_idempotent_witness :
    download_monaco
      { monacoExists := true, hasRequests := true, requestsOk := false,
        urllibOk := false, curlOk := false } = (true, []) :=
  C8_acquirer_idempotent _ rfl

-- ------------------------------------------------------------------
-- C2
-- ------------------------------------------------------------------

/-- C2 counterexample: binary absent, `requests` importable but its download
fails, and both urllib and curl would succeed if tried. `download_monaco`
reports failure after attempting only the requests method: the urllib and
curl methods are never attempted (they live in the `else` branch of
`if HAS_REQUESTS:`), so failure is not "only after all three methods have
been attempted". -/
theorem C2_counterexample :
    download_monaco
      { monacoExists := false, hasRequests := true, requestsOk := false,
        urllibOk := true, curlOk := true } = (false, [DlMethod.requestsGet]) := by
  decide

/-- C2 amended: when the binary is absent, the fallback chain depends on the
availability of the `requests` library. If it is importable, only method (a)
is attempted — its failure alone already produces the failure report, and
methods (b) and (c) are never tried. If it is not importable, method (b) is
attempted, method (c) only on (b)'s failure, and failure is reported only
after both failed. No method is ever attempted more than once. -/
theorem C2_fallback_chain (e : DlEnv) (h : e.monacoExists = false) :
    (download_monaco e).2.Nodup ∧
    ((download_monaco e).1 = false ↔
      (e.hasRequests = true ∧ e.requestsOk = false) ∨
      (e.hasRequests = false ∧ e.urllibOk = false ∧ e.curlOk = false)) ∧
    (e.hasRequests = true → (download_monaco e).2 = [DlMethod.requestsGet]) ∧
    (e.hasRequests = false → e.urllibOk = true →
      (download_monaco e).2 = [DlMethod.urllibOpen]) ∧
    (e.hasRequests = false → e.urllibOk = false →
      (download_monaco e).2 = [DlMethod.urllibOpen, DlMethod.curlExec]) := by
  obtain ⟨me, hr, ro, uo, co⟩ := e
  cases h
  revert hr ro uo co
  decide

theorem C2_fallback_chain_witness :
    (download_monaco
      { monacoExists := false, hasRequests := false, requestsOk := false,
        urllibOk := true, curlOk := false }).2 = [DlMethod.urllibOpen] :=
  (C2_fallback_chain _ rfl).2.2.2.1 rfl rfl

-- ------------------------------------------------------------------
-- C4
-- ------------------------------------------------------------------

/-- C4, evaluated at the failing input: masking the 6-character token
`tok123` produces `tok123...tok123`, which contains the full token value —
the display reveals a short token entirely, contrary to the claimed masking
property (the slices `[:10]` and `[-10:]` each cover the whole of any token
of at most 10 characters). -/
theorem C4_short_token_revealed :
    maskToken ("tok123".data) = ("tok123...tok123".data) ∧
    pyContains (maskToken ("tok123".data)) ("tok123".data) = true := by
  decide

-- ------------------------------------------------------------------
-- C3
-- ------------------------------------------------------------------

/-- C3 counterexample: a completed run whose child exits 1 generates neither
the restore script nor the README — `check=True` turns the non-zero exit
into `CalledProcessError`, whose handler returns before
`_create_restore_script` is reached. -/
theorem C3_counterexample :
    RunEvent.writeRestorePy ∉
      (run_backup ⟨2024, 1, 1, 0, 0, 0, 0⟩ (ChildOutcome.exited 1) true).2 ∧
    RunEvent.writeReadme ∉
      (run_backup ⟨2024, 1, 1, 0, 0, 0, 0⟩ (ChildOutcome.exited 1) true).2 ∧
    RunEvent.writeRestorePy ∈
      (run_backup ⟨2024, 1, 1, 0, 0, 0, 0⟩ (ChildOutcome.exited 0) true).2 := by
  decide

/-- C3 amended: the restore script and the readme/manifest are generated iff
the child exits 0 and the output directory exists afterwards; on a non-zero
exit or on timeout, no artifact is generated. -/
theorem C3_artifacts_only_on_success (t : PyDateTime) (outcome : ChildOutcome)
    (dirExists : Bool) :
    (RunEvent.writeRestorePy ∈ (run_backup t outcome dirExists).2 ∧
     RunEvent.writeReadme ∈ (run_backup t outcome dirExists).2) ↔
      (outcome = ChildOutcome.exited 0 ∧ dirExists = true) := by
  cases outcome with
  | exited code =>
    by_cases hc : code = 0 <;>
      cases dirExists <;>
        simp [run_backup, create_restore_script_events, hc]
  | timedOut => simp [run_backup]

-- ------------------------------------------------------------------
-- C10
-- ------------------------------------------------------------------

/-- C10 counterexample: even a successful completed run spawns zero — not
two — concurrent activities; `run_backup` contains no stream reader and no
progress poller. -/
theorem C10_counterexample :
    (spawnedActivities
      (run_backup ⟨2024, 1, 1, 0, 0, 0, 0⟩ (ChildOutcome.exited 0) true).2).length = 0 ∧
    (spawnedActivities
      (run_backup ⟨2024, 1, 1, 0, 0, 0, 0⟩ (ChildOutcome.exited 0) true).2).length ≠ 2 := by
  decide

/-- C10 amended: `run_backup` runs the child synchronously through one
blocking `subprocess.run` call with no output capture; it spawns no
concurrent activity whatsoever on any outcome — there is no stream reader
and no progress poller. -/
theorem C10_no_concurrent_activities (t : PyDateTime) (outcome : ChildOutcome)
    (dirExists : Bool) :
    spawnedActivities (run_backup t outcome dirExists).2 = [] := by
  cases outcome with
  | exited code =>
    by_cases hc : code = 0 <;>
      cases dirExists <;>
        simp [run_backup, spawnedActivities, create_restore_script_events, hc]
  | timedOut => simp [run_backup, spawnedActivities]

-- ------------------------------------------------------------------
-- C6
-- ------------------------------------------------------------------

/-- C6 counterexample: two probe outcomes the claim classifies wrongly.
A tool crash (exit 2) whose message mentions the connection — neither a
timeout nor a 401/403 signal — returns `False` (the claim requires `True`
for every outcome other than timeout and 401/403). And a dry-run with output
containing `401 unauthorized` but exit code 0 returns `True`, because the
success check runs first (the claim requires a 401 signal to return
`False`). -/
theorem C6_counterexample :
    test_connectivity (ProbeOutcome.completed 2 ("connection refused".data)) = false ∧
    test_connectivity (ProbeOutcome.completed 0 ("error 401 unauthorized".data)) = true := by
  decide

/-- C6 amended: the probe never raises and always returns a Boolean.
A timeout returns `False`; any other exception returns `True`. For a
completed dry-run the checks run in order: exit code 0 or a success marker
in the lowered combined output returns `True`; else a 401/unauthorized
signal returns `False`; else a 403/forbidden signal returns `False`; else
output mentioning connection/network/timeout returns `False`; every
remaining outcome — including a tool crash with an unrelated message — is
treated as non-blocking success (`True`). -/
theorem C6_probe_classification (rc : Int) (out : List Char) :
    (test_connectivity ProbeOutcome.timedOut = false) ∧
    (test_connectivity ProbeOutcome.raised = true) ∧
    (rc = 0 → test_connectivity (ProbeOutcome.completed rc out) = true) ∧
    (pyContains (pyLower out) ("validation successful".data) = true →
      test_connectivity (ProbeOutcome.completed rc out) = true) ∧
    (pyContains (pyLower out) ("would deploy".data) = true →
      test_connectivity (ProbeOutcome.completed rc out) = true) ∧
    (rc ≠ 0 →
     pyContains (pyLower out) ("validation successful".data) = false →
     pyContains (pyLower out) ("would deploy".data) = false →
      ((pyContains (pyLower out) ("401".data)
          || pyContains (pyLower out) ("unauthorized".data)) = true →
        test_connectivity (ProbeOutcome.completed rc out) = false) ∧
      ((pyContains (pyLower out) ("401".data)
          || pyContains (pyLower out) ("unauthorized".data)) = false →
        (pyContains (pyLower out) ("403".data)
          || pyContains (pyLower out) ("forbidden".data)) = true →
        test_connectivity (ProbeOutcome.completed rc out) = false) ∧
      ((pyContains (pyLower out) ("401".data)
          || pyContains (pyLower out) ("unauthorized".data)) = false →
        (pyContains (pyLower out) ("403".data)
          || pyContains (pyLower out) ("forbidden".data)) = false →
        (pyContains (pyLower out) ("connection".data)
          || pyContains (pyLower out) ("network".data)
          || pyContains (pyLower out) ("timeout".data)) = true →
        test_connectivity (ProbeOutcome.completed rc out) = false) ∧
      ((pyContains (pyLower out) ("401".data)
          || pyContains (pyLower out) ("unauthorized".data)) = false →
        (pyContains (pyLower out) ("403".data)
          || pyContains (pyLower out) ("forbidden".data)) = false →
        (pyContains (pyLower out) ("connection".data)
          || pyContains (pyLower out) ("network".data)
          || pyContains (pyLower out) ("timeout".data)) = false →
        test_connectivity (ProbeOutcome.completed rc out) = true)) := by
  refine ⟨rfl, rfl, ?_, ?_, ?_, ?_⟩
  · intro h
    simp [test_connectivity, h]
  · intro h
    simp [test_connectivity, h]
  · intro h
    simp [test_connectivity, h]
  · intro h0 hv hw
    refine ⟨?_, ?_, ?_, ?_⟩ <;> intro ha <;>
      first
        | (intro hb; intro hc; simp_all [test_connectivity])
        | (intro hb; simp_all [test_connectivity])
        | simp_all [test_connectivity]

theorem C6_probe_classification_witness :
    test_connectivity (ProbeOutcome.completed 5 ("http 401".data)) = false :=
  ((C6_probe_classification 5 ("http 401".data)).2.2.2.2.2
    (by decide) (by decide) (by decide)).1 (by decide)

-- ------------------------------------------------------------------
-- C7
-- ------------------------------------------------------------------

/-- C7: credential precedence in `_get_token`. A truthy primary env var
(`DT_API_TOKEN`) wins regardless of every other source — in particular
regardless of any settings-file content, so an environment variable always
overrides a settings-file value. With the primary falsy, a truthy legacy
alias (`DYNATRACE_API_TOKEN`) wins the same way. With both falsy, the `.env`
settings-file scan (first matching `KEY=` line, whitespace then quotes
stripped) supplies the value. -/
theorem C7_credential_precedence (e : TokenEnv) (v : List Char) (lines : List (List Char)) :
    (e.dtApiToken = some v → v ≠ [] → _get_token e = some v) ∧
    (pyTruthy e.dtApiToken = false → e.dynatraceApiToken = some v → v ≠ [] →
      _get_token e = some v) ∧
    (pyTruthy e.dtApiToken = false → pyTruthy e.dynatraceApiToken = false →
      e.envFile = some lines → envFileScan lines = some v →
      _get_token e = some v) := by
  refine ⟨?_, ?_, ?_⟩
  · intro h hv
    simp [_get_token, h, pyTruthy_of_ne_nil v hv]
  · intro h1 h2 hv
    simp [_get_token, h1, h2, pyTruthy_of_ne_nil v hv]
  · intro h1 h2 hf hs
    simp [_get_token, h1, h2, hf, hs]

/-- Witness for C7: a token present both in the environment and (with a
different value) in the `.env` file resolves to the environment value. -/
theorem C7_credential_precedence_witness :
    _get_token
      { dtApiToken := some ("envtok".data), dynatraceApiToken := none,
        envFile := some [("DT_API_TOKEN=\"filetok\"".data)], configToken := none } =
      some ("envtok".data) :=
  (C7_credential_precedence
    { dtApiToken := some ("envtok".data), dynatraceApiToken := none,
      envFile := some [("DT_API_TOKEN=\"filetok\"".data)], configToken := none }
    ("envtok".data) []).1 rfl (by decide)

-- ------------------------------------------------------------------
-- C1
-- ------------------------------------------------------------------

theorem countTotal_bumpCount (k : List Char) (types : List (List Char × Nat)) :
    countTotal (bumpCount k types) = countTotal types + 1 := by
  induction types with
  | nil => simp [bumpCount, countTotal]
  | cons p rest ih =>
    obtain ⟨k1, c⟩ := p
    by_cases h : k1 = k <;>
      simp [bumpCount, h, countTotal] at ih ⊢ <;> omega

theorem analyzeLoop_spec (files : List BFile) (types : List (List Char × Nat)) (size : Nat) :
    (analyzeLoop files types size).2 =
      size + ((files.filter (fun f => f.statOk)).map BFile.size).sum ∧
    countTotal (analyzeLoop files types size).1 = countTotal types + files.length := by
  induction files generalizing types size with
  | nil => simp [analyzeLoop]
  | cons f fs ih =>
    cases hf : f.statOk <;>
      simp [analyzeLoop, hf, ih, countTotal_bumpCount] <;> omega

/-- C1 amended: `_analyze_backup` counts only the files matching the
`*.json` glob, bucketed by immediate parent directory name rather than by
file extension (there is no "no-extension" sentinel); `totalFiles` is the
number of matching files, each matching file contributes exactly one bucket
increment (the bucket counts sum to `totalFiles`), and `totalSize` is the
byte sum of exactly the matching files. Files of any other extension
contribute to none of the statistics. -/
theorem C1_analyzer_counts_json_only (files : List BFile)
    (h : ∀ f ∈ files, f.statOk = true) :
    (_analyze_backup files).totalFiles = (files.filter matchesJsonGlob).length ∧
    (_analyze_backup files).totalSize =
      ((files.filter matchesJsonGlob).map BFile.size).sum ∧
    countTotal (_analyze_backup files).configTypes =
      (files.filter matchesJsonGlob).length := by
  have hsub : (files.filter matchesJsonGlob).filter (fun f => f.statOk) =
      files.filter matchesJsonGlob := by
    apply List.filter_eq_self.mpr
    intro f hf
    exact h f (List.mem_of_mem_filter hf)
  have hs := analyzeLoop_spec (files.filter matchesJsonGlob) [] 0
  refine ⟨rfl, ?_, ?_⟩
  · have h1 := hs.1
    rw [hsub] at h1
    simpa [_analyze_backup] using h1
  · have h2 := hs.2
    simpa [_analyze_backup, countTotal] using h2

theorem C1_analyzer_counts_json_only_witness :
    (_analyze_backup c1WitnessFiles).totalFiles =
      (c1WitnessFiles.filter matchesJsonGlob).length ∧
    (_analyze_backup c1WitnessFiles).totalSize =
      ((c1WitnessFiles.filter matchesJsonGlob).map BFile.size).sum ∧
    countTotal (_analyze_backup c1WitnessFiles).configTypes =
      (c1WitnessFiles.filter matchesJsonGlob).length :=
  C1_analyzer_counts_json_only c1WitnessFiles (by decide)

set_option maxRecDepth 8000 in
/-- C1 counterexample: the claim's own scenario — 90 `.json` and 30 `.yaml`
files of 20000 bytes each, i.e. 120 files and 2,400,000 bytes on disk. The
analysis reports `totalFiles = 90` (not 120), a byte total of 1,800,000
(not 2,400,000), and buckets keyed by parent directory name, not by
extension: the `.yaml` files are invisible to it. -/
theorem C1_counterexample :
    c1Scenario.length = 120 ∧
    (c1Scenario.map BFile.size).sum = 2400000 ∧
    (_analyze_backup c1Scenario).totalFiles = 90 ∧
    (_analyze_backup c1Scenario).totalSize = 1800000 ∧
    (_analyze_backup c1Scenario).configTypes = [(("auto-tag".data), 90)] := by
  decide

-- ------------------------------------------------------------------
-- C5
-- ------------------------------------------------------------------

/-- C5 counterexample: every token source is empty, but the host is missing
the optional `requests` library. The invocation exits with status 1, yet on
the way it attempts a `pip install requests` network request — the
dependency step of `validate_environment` runs before the token check, so
"performs no network request before exiting" fails on such hosts. -/
theorem C5_counterexample :
    (mainExit c5EnvNoRequests).1 = 1 ∧
    (mainExit c5EnvNoRequests).2 = [NetAction.pipInstall ("requests".data)] ∧
    (mainExit c5EnvNoRequests).2 ≠ [] := by
  decide

/-- C5 amended: with the cluster URL set, an adequate interpreter, and no
token available from any source, the invocation exits with status 1 and
attempts no network request toward the tool release endpoint or the backup
target — no tool download, no connectivity dry-run, no backup run. The one
network request it may attempt first is the installation of the missing
optional `requests` dependency; when that library is already importable, no
network request at all is attempted. -/
theorem C5_no_token_exits_one (e : SysEnv)
    (hurl : pyTruthy e.dtClusterUrl = true)
    (h1 : e.tokens.dtApiToken = none) (h2 : e.tokens.dynatraceApiToken = none)
    (h3 : e.tokens.envFile = none) (h4 : e.tokens.configToken = none)
    (hpy : e.pythonOk = true) :
    (mainExit e).1 = 1 ∧
    (mainExit e).2 =
      (if e.hasRequests then [] else [NetAction.pipInstall ("requests".data)]) := by
  have htok : _get_token e.tokens = none := by
    simp [_get_token, h1, h2, h3, h4, pyTruthy]
  have hval : validate_environment e =
      (false, if e.hasRequests then [] else [NetAction.pipInstall ("requests".data)]) := by
    cases hreq : e.hasRequests <;>
      simp [validate_environment, check_python_installation, install_dependencies,
        hpy, hreq, htok, pyTruthy]
  constructor <;>
    simp [mainExit, run_complete_backup, hurl, hval]

theorem C5_no_token_exits_one_witness :
    (mainExit c5EnvWithRequests).1 = 1 ∧
    (mainExit c5EnvWithRequests).2 =
      (if c5EnvWithRequests.hasRequests then []
       else [NetAction.pipInstall ("requests".data)]) :=
  C5_no_token_exits_one c5EnvWithRequests (by decide) rfl rfl rfl rfl rfl

-- ------------------------------------------------------------------
-- C9
-- ------------------------------------------------------------------

theorem dchar_inj : ∀ a < 10, ∀ b < 10, dchar a = dchar b → a = b := by
  decide

theorem pad2_inj (a b : Nat) (ha : a < 100) (hb : b < 100) (h : pad2 a = pad2 b) :
    a = b := by
  simp only [pad2, List.cons.injEq, and_true] at h
  have d1 := dchar_inj (a / 10) (by omega) (b / 10) (by omega) h.1
  have d2 := dchar_inj (a % 10) (by omega) (b % 10) (by omega) h.2
  omega

theorem pad4_inj (a b : Nat) (ha : a < 10000) (hb : b < 10000) (h : pad4 a = pad4 b) :
    a = b := by
  obtain ⟨h1, h2⟩ := List.append_inj h rfl
  have d1 := pad2_inj _ _ (by omega) (by omega) h1
  have d2 := pad2_inj _ _ (by omega) (by omega) h2
  omega

/-- C9 counterexample: two distinct run start times within the same calendar
second — differing only in microseconds — map to the same output directory
name, so two distinct runs can be assigned the same directory (which
`mkdir(parents=True, exist_ok=True)` then silently reuses). -/
theorem C9_counterexample :
    (⟨2024, 1, 1, 0, 0, 0, 0⟩ : PyDateTime) ≠ ⟨2024, 1, 1, 0, 0, 0, 500000⟩ ∧
    backupDirName ⟨2024, 1, 1, 0, 0, 0, 0⟩ =
      backupDirName ⟨2024, 1, 1, 0, 0, 0, 500000⟩ := by
  decide

/-- C9 amended: a run's output directory name is determined by exactly the
start time truncated to whole seconds: two valid start times yield the same
directory iff they agree on every component from year down to second. Runs
whose second-granularity timestamps differ therefore always get distinct
directories, while two runs starting within the same second are assigned the
same directory. -/
theorem C9_directory_unique_per_second (t1 t2 : PyDateTime)
    (h1 : t1.Valid) (h2 : t2.Valid) :
    backupDirName t1 = backupDirName t2 ↔
      (t1.year = t2.year ∧ t1.month = t2.month ∧ t1.day = t2.day ∧
       t1.hour = t2.hour ∧ t1.minute = t2.minute ∧ t1.second = t2.second) := by
  simp only [PyDateTime.Valid] at h1 h2
  obtain ⟨hy1, hmo1, hd1, hhh1, hmi1, hs1⟩ := h1
  obtain ⟨hy2, hmo2, hd2, hhh2, hmi2, hs2⟩ := h2
  constructor
  · intro h
    have h0 : strftimeTS t1 = strftimeTS t2 := List.append_cancel_left h
    simp only [strftimeTS, List.append_assoc] at h0
    obtain ⟨e1, h0⟩ := List.append_inj h0 rfl
    obtain ⟨e2, h0⟩ := List.append_inj h0 rfl
    obtain ⟨e3, h0⟩ := List.append_inj h0 rfl
    obtain ⟨e0, h0⟩ := List.append_inj h0 rfl
    obtain ⟨e4, h0⟩ := List.append_inj h0 rfl
    obtain ⟨e5, e6⟩ := List.append_inj h0 rfl
    exact ⟨pad4_inj _ _ hy1 hy2 e1,
           pad2_inj _ _ (by omega) (by omega) e2,
           pad2_inj _ _ (by omega) (by omega) e3,
           pad2_inj _ _ (by omega) (by omega) e4,
           pad2_inj _ _ (by omega) (by omega) e5,
           pad2_inj _ _ (by omega) (by omega) e6⟩
  · rintro ⟨hy, hmo, hd, hhh, hmi, hs⟩
    simp [backupDirName, strftimeTS, hy, hmo, hd, hhh, hmi, hs]

theorem C9_directory_unique_per_second_witness :
    backupDirName ⟨2024, 1, 1, 0, 0, 0, 0⟩ ≠ backupDirName ⟨2024, 1, 1, 0, 0, 1, 0⟩ := by
  intro h
  have h0 := (C9_directory_unique_per_second ⟨2024, 1, 1, 0, 0, 0, 0⟩
    ⟨2024, 1, 1, 0, 0, 1, 0⟩ (by decide) (by decide)).mp h
  exact absurd h0.2.2.2.2.2 (by decide)

end DTBackup
